import Mathlib

/-!
Shallow embedding of `psst/model/__init__.py` (build_model and PSSTModel.solve),
together with theorems checking the natural-language specification against it.

Conventions of the embedding:
* pandas/numpy floats are idealized as rationals (`ℚ`);
* a Python value that may be `None` is an `Option`;
* a Python `dict` is an association list with unique keys (`List (String × _)`);
* code that raises (`raise NotImplementedError`, `assert`) returns `Except`
  with a structured error carrying exactly the data interpolated into the
  Python error message;
* dataframe row/column iteration over independent keys is modelled as
  pointwise functional update.
-/

namespace Psst

/-! ## Configuration dictionary (build_model lines 64-73) -/

/-- A value stored in the `config` dict passed to `build_model`.  The code
uses booleans (`use_ptdf`, `has_global_reserves`, `resolve`), an integer
(`segments`) and a string (`market_type`). -/
inductive ConfigVal where
  | bool (b : Bool)
  | nat (n : ℕ)
  | str (s : String)
deriving DecidableEq

/-- Python truthiness of a config value, as used by `if resolve:`. -/
def ConfigVal.truthy : ConfigVal → Bool
  | .bool b => b
  | .nat n => n != 0
  | .str s => s != ""

/-- `dict.pop(key, default)`: returns the stored value and removes the key
when present, otherwise returns the default and leaves the dict unchanged. -/
def dictPop (d : List (String × ConfigVal)) (k : String) (dflt : ConfigVal) :
    ConfigVal × List (String × ConfigVal) :=
  match d.lookup k with
  | some v => (v, d.filter fun p => p.1 != k)
  | none => (dflt, d)

/-- The five configuration parameters popped by `build_model`
(lines 68-73) and the dict left behind after the five `pop` calls. -/
structure ConfigParams where
  use_ptdf : ConfigVal
  segments : ConfigVal
  has_global_reserves : ConfigVal
  resolve : ConfigVal
  market_type : ConfigVal
  remaining : List (String × ConfigVal)

/-- Lines 68-73 of `build_model`: the five `config.pop(...)` calls, in
source order, each operating on the dict left by the previous one. -/
def popConfigParams (config : List (String × ConfigVal)) : ConfigParams :=
  let s1 := dictPop config "use_ptdf" (ConfigVal.bool false)
  let s2 := dictPop s1.2 "segments" (ConfigVal.nat 2)
  let s3 := dictPop s2.2 "has_global_reserves" (ConfigVal.bool true)
  let s4 := dictPop s3.2 "resolve" (ConfigVal.bool false)
  let s5 := dictPop s4.2 "market_type" (ConfigVal.str "day_ahead")
  ⟨s1.1, s2.1, s3.1, s4.1, s5.1, s5.2⟩

/-! ## Reserve-factor defaulting (build_model lines 75-82) -/

/-- Lines 75-82 of `build_model`, verbatim:

    if reserve_factor is None:            reserve_factor = 0
    if regulating_reserve_factor is None: reserve_factor = 0
    if flexible_ramp_factor is None:      flexible_ramp_factor = 0

Returns the values of `(reserve_factor, regulating_reserve_factor,
flexible_ramp_factor)` after this block.  Note that the second `if` rebinds
`reserve_factor`, not `regulating_reserve_factor`, which is left untouched
(and is later handed, possibly still `None`, to the regulating-reserves
initialization). -/
def defaultFactors (reserve_factor regulating_reserve_factor flexible_ramp_factor : Option ℚ) :
    ℚ × Option ℚ × ℚ :=
  let rf : ℚ := match reserve_factor with | none => 0 | some x => x
  let rf : ℚ := match regulating_reserve_factor with | none => 0 | some _ => rf
  let ff : ℚ := match flexible_ramp_factor with | none => 0 | some x => x
  (rf, regulating_reserve_factor, ff)

/-! ## Initial-state derivation (build_model lines 204-222)

The prior commitment trace of one generator is a column of
`previous_unit_commitment_df`, indexed like `load_df`.  The embedding uses
0-based positional labels (the pandas default `RangeIndex`, which is what
the in-function default construction of the dataframe produces), so the
index value at position `i` is `i` itself. -/

/-- `previous_unit_commitment_df.diff()` for one column, keeping only the
nonzero entries together with their index labels (the result of
`s[s!=0]` after `dropna()`).  Position 0 is the `NaN` row dropped by
`dropna`. -/
def traceDiffs (trace : List ℤ) : List (ℕ × ℤ) :=
  (List.range trace.length).filterMap fun i =>
    if i = 0 then none
    else
      let d := trace.getD i 0 - trace.getD (i - 1) 0
      if d = 0 then none else some (i, d)

/-- Lines 206-218 of `build_model` for one generator column: locate the last
nonzero difference (`diff_s.tail(1)`), falling back to the first observed
value (`.head(1)`) when the trace has no transition; if the examined value
is `-1` or `0` the unit is off, giving `-(T - idx)`, otherwise `T - idx`. -/
def initialState (trace : List ℤ) : ℤ :=
  let T : ℤ := trace.length
  let checkRow : ℕ × ℤ :=
    match (traceDiffs trace).getLast? with
    | none => (0, trace.headD 0)
    | some p => p
  if checkRow.2 = -1 ∨ checkRow.2 = 0 then -(T - checkRow.1) else T - checkRow.1

/-! ## Piecewise cost curve construction (build_model lines 226-281) -/

/-- The columns of one row of `generator_df` used by the cost-curve loop and
by the startup/shutdown cost block.  `COST n` is the `COST_n` column. -/
structure GenRow where
  MODEL : ℤ
  NCOST : ℕ
  PMIN : ℚ
  PMAX : ℚ
  COST : ℕ → ℚ
  STARTUP : ℚ
  SHUTDOWN : ℚ

/-- `numpy.linspace(a, b, num := n)` over rationals: `n` evenly spaced
samples from `a` to `b` inclusive. -/
def linspace (a b : ℚ) (n : ℕ) : List ℚ :=
  if n = 0 then []
  else if n = 1 then [a]
  else (List.range n).map fun (i : ℕ) => a + (b - a) * (i : ℚ) / ((n : ℚ) - 1)

/-- The errors the cost-curve block can raise.  Each constructor carries
exactly the data interpolated into the corresponding Python message:
* `unsupportedNCost` — `NotImplementedError("Unable to build cost function
  for ncost=...")` (line 250; does not name the generator);
* `singlePointCurve` — the `assert` at line 254, whose message names the
  generator and its `NCOST`;
* `pointsLength` / `valuesLength` — the post-construction length
  validations at lines 276 and 279, whose messages name the offending
  list and generator. -/
inductive CurveError where
  | unsupportedNCost (ncost : ℕ)
  | singlePointCurve (genco : String) (ncost : ℕ)
  | pointsLength (genco : String) (points : List ℚ)
  | valuesLength (genco : String) (values : List ℚ)
deriving DecidableEq

/-- Does the error come from the length validation (the `assert`s that name
the offending generator), as opposed to the `ncost` NotImplementedError? -/
def CurveError.isLengthViolation : CurveError → Bool
  | .unsupportedNCost _ => false
  | .singlePointCurve _ _ => true
  | .pointsLength _ _ => true
  | .valuesLength _ _ => true

/-- The generator name carried in the error message, if any. -/
def CurveError.genco? : CurveError → Option String
  | .unsupportedNCost _ => none
  | .singlePointCurve g _ => some g
  | .pointsLength g _ => some g
  | .valuesLength g _ => some g

/-- Lines 234-272 of `build_model`: the per-generator cost-curve
construction, producing `(points[i], values[i])` for generator `genco` with
row `g`.  A generator whose `MODEL` is outside `{0, 1, 2}` matches no
branch and gets no curve (`none`). -/
def rawCurve (g : GenRow) (segments : ℕ) (genco : String) :
    Except CurveError (Option (List ℚ × List ℚ)) :=
  if g.MODEL = 2 then
    if g.NCOST = 2 then
      let small_increment : ℚ := if g.PMIN = g.PMAX then 1 else 0
      let pts := linspace g.PMIN (g.PMAX + small_increment) 2
      .ok (some (pts, pts.map fun p => g.COST 0 + g.COST 1 * p))
    else if g.NCOST = 3 then
      let pts := linspace g.PMIN g.PMAX segments
      .ok (some (pts, pts.map fun p => g.COST 0 + g.COST 1 * p + g.COST 2 * p ^ 2))
    else .error (.unsupportedNCost g.NCOST)
  else if g.MODEL = 1 then
    if g.NCOST = 1 then .error (.singlePointCurve genco g.NCOST)
    else
      .ok (some ((List.range g.NCOST).map fun n => g.COST (2 * n),
                 (List.range g.NCOST).map fun n => g.COST (2 * n + 1)))
  else if g.MODEL = 0 then
    .ok (some ([0, g.PMAX], [0, 1 / 100]))
  else .ok none

/-- Lines 274-279 of `build_model` for one generator: the post-construction
validation loops (`float` coercion is the identity on rationals; the
length-`≥ 2` asserts fail with messages naming the generator, points
first, then values). -/
def validateCurve (genco : String) :
    Option (List ℚ × List ℚ) → Except CurveError (Option (List ℚ × List ℚ))
  | none => .ok none
  | some (pts, vals) =>
    if 2 ≤ pts.length then
      if 2 ≤ vals.length then .ok (some (pts, vals))
      else .error (.valuesLength genco vals)
    else .error (.pointsLength genco pts)

/-- Lines 234-279 for one generator: construction followed by the
post-construction validation (an exception raised during construction
propagates past the validation, as in the Python control flow). -/
def buildCurve (g : GenRow) (segments : ℕ) (genco : String) :
    Except CurveError (Option (List ℚ × List ℚ)) :=
  (rawCurve g segments genco).bind (validateCurve genco)

/-- Well-formedness of a generator row's cost inputs, as assumed by the
spec's invariant claims: capacity bounds are ordered and nonnegative, the
configured segment count is at least 2, and — only for an explicitly
declared piecewise curve (`MODEL = 1`), where the even-indexed `COST`
columns are the declared power breakpoints — those breakpoints
`COST_0, COST_2, ...` are non-decreasing.  For the polynomial and fixed
kinds the `COST` columns are coefficients and carry no ordering
requirement. -/
def WellFormedGen (g : GenRow) (segments : ℕ) : Prop :=
  0 ≤ g.PMIN ∧ g.PMIN ≤ g.PMAX ∧ 2 ≤ segments ∧
    (g.MODEL = 1 →
      ((List.range g.NCOST).map fun n => g.COST (2 * n)).Chain' (· ≤ ·))

/-! ## Market-type selector (build_model lines 328-335) -/

/-- A constraint-construction call made by the market-type selector.  All
three recognized branches call the same `constraint_for_Flexible_Ramping`. -/
inductive ConstraintCall where
  | flexibleRamping
deriving DecidableEq

/-- Lines 328-335 of `build_model`: the `market_type` dispatch.  Each
recognized value applies `constraint_for_Flexible_Ramping(model)`; any
other value raises `NotImplementedError("Unknown market type {}")`. -/
def marketTypeSelect (market_type : String) : Except String (List ConstraintCall) :=
  if market_type = "day_ahead" then .ok [ConstraintCall.flexibleRamping]
  else if market_type = "hourly_ahead" then .ok [ConstraintCall.flexibleRamping]
  else if market_type = "real_time" then .ok [ConstraintCall.flexibleRamping]
  else .error ("Unknown market type " ++ market_type)

/-! ## Startup/shutdown cost coefficients (build_model lines 288-292) -/

/-- Line 288: `hot_start_costs = generator_df['STARTUP'].to_dict()`. -/
def hot_start_costs (gens : String → GenRow) : String → ℚ :=
  fun g => (gens g).STARTUP

/-- Line 289: `cold_start_costs = generator_df['STARTUP'].to_dict()` —
read from the same `STARTUP` column as the hot-start coefficients. -/
def cold_start_costs (gens : String → GenRow) : String → ℚ :=
  fun g => (gens g).STARTUP

/-- Modelled from the spec: the body of `hot_start_cold_start_costs` lives
in `psst.model.generators`, which is not part of this source tree.  Per the
spec's ConstraintAssembler description it selects the hot-start versus the
cold-start cost coefficient "based on offline duration relative to a
threshold": within the threshold the hot-start coefficient applies,
beyond it the cold-start one. -/
def startupCostSelect (hot cold : ℚ) (offline threshold : ℤ) : ℚ :=
  if offline ≤ threshold then hot else cold

/-! ## PSSTModel.solve and the resolve phase (lines 346-395)

`G` and `T` are the generator and time-period index types of the pyomo
model.  Only the parts of the pyomo model that the resolve phase touches
are modelled: the `UnitOn` variables (fixed flag plus assigned value) and
the active flags of the four min-up/min-down constraint groups.  The
external `solve_model` call is a black box; the MIP solution it produces is
the `uc` argument below (`results.unit_commitment`, one optionally-null
float per generator and period). -/

/-- A pyomo variable as the resolve phase sees it: its `fixed` flag and its
currently assigned value. -/
structure VarState where
  fixed : Bool
  value : ℚ
deriving DecidableEq

/-- The slice of the pyomo model mutated by the resolve phase. -/
structure UCModel (G T : Type) where
  unitOn : G → T → VarState
  enforceUpTimeConstraintsInitialActive : Bool
  enforceUpTimeConstraintsSubsequentActive : Bool
  enforceDownTimeConstraintsInitialActive : Bool
  enforceDownTimeConstraintsSubsequentActive : Bool

/-- The `PSSTModel` object returned by `build_model` (lines 351-358):
`_model`, `_is_solved`, `_status` (the `_case` and `_results` handles are
irrelevant to the claims). -/
structure PSSTState (G T : Type) where
  model : UCModel G T
  is_solved : Bool
  status : Option String

/-- Python `int(float(v))`: truncation toward zero. -/
def pyInt (q : ℚ) : ℤ := if 0 ≤ q then ⌊q⌋ else ⌈q⌉

/-- Lines 380-390 of `PSSTModel.solve`: for every generator/period pair
whose MIP unit-commitment value `v` is not null, set
`UnitOn[g, t].fixed = True` and assign `int(float(v))`; then deactivate the
four min-up/min-down constraint groups.  The returned model is the state
submitted to the second, continuous `solve_model` call. -/
def resolvePhase {G T : Type} (m : UCModel G T) (uc : G → T → Option ℚ) : UCModel G T where
  unitOn := fun g t =>
    match uc g t with
    | none => m.unitOn g t
    | some v => { fixed := true, value := (pyInt v : ℚ) }
  enforceUpTimeConstraintsInitialActive := false
  enforceUpTimeConstraintsSubsequentActive := false
  enforceDownTimeConstraintsInitialActive := false
  enforceDownTimeConstraintsSubsequentActive := false

/-- `PSSTModel.solve` (lines 372-395).  `resolve` is the method's own
argument (Python default `False`); it is forced to `True` when the solver
is `'xpress'` (line 377-378).  Returns the final state and whether the
fix-and-resolve phase (and hence the second, continuous solve) ran. -/
def psstSolve {G T : Type} (s : PSSTState G T) (solver : String) (resolve : Bool)
    (uc : G → T → Option ℚ) : PSSTState G T × Bool :=
  let rsv := if solver = "xpress" then true else resolve
  let m := if rsv then resolvePhase s.model uc else s.model
  ({ model := m, is_solved := s.is_solved, status := some "solved" }, rsv)

/-- The `build_model` steps relevant to the `resolve` configuration option:
the config is popped (lines 64-73), the popped `resolve` value is passed to
`constraint_up_down_time(model, resolve=resolve)` (line 324, returned here
as the middle component), and the returned `PSSTModel` (line 348) is
constructed from the pyomo model alone — it retains no field derived from
the popped `resolve` value. -/
def buildOrchestration {G T : Type} (cfg : List (String × ConfigVal)) (m : UCModel G T) :
    PSSTState G T × Bool × List (String × ConfigVal) :=
  let c := popConfigParams cfg
  (⟨m, false, none⟩, c.resolve.truthy, c.remaining)

/-! ## Helper lemmas -/

theorem lookup_filter_self (l : List (String × ConfigVal)) (k : String) :
    (l.filter fun p => p.1 != k).lookup k = none := by
  simp
  exact fun a b _ h => fun hk => h hk.symm

theorem lookup_filter_none (l : List (String × ConfigVal)) (q : String × ConfigVal → Bool)
    (k : String) (h : l.lookup k = none) : (l.filter q).lookup k = none := by
  simp at h ⊢
  exact fun a b hm _ => h a b hm

theorem lookup_dictPop_self (l : List (String × ConfigVal)) (k : String) (d : ConfigVal) :
    ((dictPop l k d).2).lookup k = none := by
  unfold dictPop
  cases hl : l.lookup k with
  | none => exact hl
  | some v => exact lookup_filter_self l k

theorem lookup_dictPop_none (l : List (String × ConfigVal)) (k' : String) (d : ConfigVal)
    {k : String} (h : l.lookup k = none) : ((dictPop l k' d).2).lookup k = none := by
  unfold dictPop
  cases hl : l.lookup k' with
  | none => exact h
  | some v => exact lookup_filter_none l (fun p => p.1 != k') k h

theorem linspace_chain' (a b : ℚ) (h : a ≤ b) (n : ℕ) :
    (linspace a b n).Chain' (· ≤ ·) := by
  unfold linspace
  split
  · simp
  · split
    · simp
    · rename_i h0 h1
      obtain ⟨m, rfl⟩ : ∃ m, n = m + 2 := ⟨n - 2, by omega⟩
      have hd : (0 : ℚ) < ((m + 2 : ℕ) : ℚ) - 1 := by
        push_cast
        linarith
      have hc : List.Chain'
          (fun i j : ℕ => a + (b - a) * (i : ℚ) / (((m + 2 : ℕ) : ℚ) - 1) ≤
            a + (b - a) * (j : ℚ) / (((m + 2 : ℕ) : ℚ) - 1)) (List.range (m + 2)) := by
        rw [show m + 2 = Nat.succ (m + 1) from rfl, List.chain'_range_succ]
        intro i hi
        have hba : (0 : ℚ) ≤ b - a := by linarith
        have hi' : ((i : ℚ)) ≤ ((i + 1 : ℕ) : ℚ) := by push_cast; linarith
        have hnum : (b - a) * (i : ℚ) ≤ (b - a) * ((i + 1 : ℕ) : ℚ) :=
          mul_le_mul_of_nonneg_left hi' hba
        have hdiv := (div_le_div_iff_of_pos_right hd).mpr hnum
        exact add_le_add_left hdiv a
      exact List.chain'_map_of_chain'
        (fun (i : ℕ) => a + (b - a) * (i : ℚ) / (((m + 2 : ℕ) : ℚ) - 1))
        (fun x y hxy => hxy) hc

theorem linspace_two (a b : ℚ) : linspace a b 2 = [a, b] := by
  unfold linspace
  norm_num [List.range_succ]

theorem rawCurve_error_genco (g : GenRow) (segments : ℕ) (genco : String) (e : CurveError)
    (h : rawCurve g segments genco = .error e) (hlen : e.isLengthViolation = true) :
    e.genco? = some genco := by
  unfold rawCurve at h
  split_ifs at h <;> cases h <;>
    simp_all [CurveError.isLengthViolation, CurveError.genco?]

theorem rawCurve_points_chain' (g : GenRow) (segments : ℕ) (genco : String)
    (pts vals : List ℚ)
    (hp0 : 0 ≤ g.PMIN) (hpm : g.PMIN ≤ g.PMAX)
    (hchain : g.MODEL = 1 →
      ((List.range g.NCOST).map fun n => g.COST (2 * n)).Chain' (· ≤ ·))
    (h : rawCurve g segments genco = .ok (some (pts, vals))) :
    pts.Chain' (· ≤ ·) := by
  unfold rawCurve at h
  split_ifs at h <;> cases h
  · exact linspace_chain' _ _ (by linarith) 2
  · exact linspace_chain' _ _ (by linarith) 2
  · exact linspace_chain' _ _ hpm segments
  · exact hchain (by assumption)
  · simp only [List.chain'_cons, List.chain'_singleton, and_true]
    exact hp0.trans hpm

/-! ## Claim theorems -/

/-- Claim C1: in `build_model`, when `regulating_reserve_factor` is passed as
`None` the defaulting block sets `reserve_factor` to `0` (overwriting any
caller-supplied `reserve_factor`) and leaves `regulating_reserve_factor`
itself as `None`; independently, `reserve_factor` and
`flexible_ramp_factor` each default to `0` when passed as `None`. -/
theorem defaultFactors_spec (rf rrf frf : Option ℚ) :
    (rrf = none →
      (defaultFactors rf rrf frf).1 = 0 ∧ (defaultFactors rf rrf frf).2.1 = none) ∧
    (rf = none → (defaultFactors rf rrf frf).1 = 0) ∧
    (frf = none → (defaultFactors rf rrf frf).2.2 = 0) := by
  unfold defaultFactors
  cases rf <;> cases rrf <;> cases frf <;> simp

/-- Witness for C1: a caller-supplied `reserve_factor = 5` is overwritten to
`0` because `regulating_reserve_factor` is unset, which itself stays `None`;
the unset `flexible_ramp_factor` defaults to `0`. -/
theorem defaultFactors_spec_witness :
    (defaultFactors (some 5) none none).1 = 0 ∧
    (defaultFactors (some 5) none none).2.1 = none ∧
    (defaultFactors (some 5) none none).2.2 = 0 :=
  ⟨((defaultFactors_spec (some 5) none none).1 rfl).1,
   ((defaultFactors_spec (some 5) none none).1 rfl).2,
   (defaultFactors_spec (some 5) none none).2.2 rfl⟩

/-- Claim C4: a prior commitment trace `[1, 1, 0, 0]` over a 4-period
horizon yields `initial_state = -2` (off for the 2 periods immediately
preceding period 1): the last transition sits at index 2 with difference
`-1`, so the result is `-(4 - 2)`. -/
theorem initialState_1100 : initialState [1, 1, 0, 0] = -2 := by decide

/-- Claim C5: a constant prior commitment trace `[1, 1, 1, 1]` over a
4-period horizon has no transition, so the first observed value `1` rules
and `initial_state = +4`. -/
theorem initialState_1111 : initialState [1, 1, 1, 1] = 4 := by decide

/-- Claim C9: the hot-start and cold-start cost coefficients handed to
`hot_start_cold_start_costs` are both read from the `STARTUP` column, so
they are equal for every generator, and the hot-versus-cold selection
yields the same startup cost for any two offline durations. -/
theorem hot_start_eq_cold_start (gens : String → GenRow) (g : String)
    (offline₁ offline₂ threshold : ℤ) :
    hot_start_costs gens g = cold_start_costs gens g ∧
    startupCostSelect (hot_start_costs gens g) (cold_start_costs gens g) offline₁ threshold =
      startupCostSelect (hot_start_costs gens g) (cold_start_costs gens g) offline₂ threshold := by
  refine ⟨rfl, ?_⟩
  unfold startupCostSelect hot_start_costs cold_start_costs
  split <;> split <;> rfl

/-- Claim C10: `build_model` mutates the caller-supplied config dict: after
the five `config.pop(...)` calls, none of the recognized keys `use_ptdf`,
`segments`, `has_global_reserves`, `resolve`, `market_type` remains in the
dict the caller passed. -/
theorem popConfigParams_removes_recognized_keys (cfg : List (String × ConfigVal)) :
    (popConfigParams cfg).remaining.lookup "use_ptdf" = none ∧
    (popConfigParams cfg).remaining.lookup "segments" = none ∧
    (popConfigParams cfg).remaining.lookup "has_global_reserves" = none ∧
    (popConfigParams cfg).remaining.lookup "resolve" = none ∧
    (popConfigParams cfg).remaining.lookup "market_type" = none := by
  unfold popConfigParams
  refine ⟨?_, ?_, ?_, ?_, ?_⟩
  · exact lookup_dictPop_none _ _ _ (lookup_dictPop_none _ _ _ (lookup_dictPop_none _ _ _
      (lookup_dictPop_none _ _ _ (lookup_dictPop_self _ _ _))))
  · exact lookup_dictPop_none _ _ _ (lookup_dictPop_none _ _ _ (lookup_dictPop_none _ _ _
      (lookup_dictPop_self _ _ _)))
  · exact lookup_dictPop_none _ _ _ (lookup_dictPop_none _ _ _ (lookup_dictPop_self _ _ _))
  · exact lookup_dictPop_none _ _ _ (lookup_dictPop_self _ _ _)
  · exact lookup_dictPop_self _ _ _

/-- Claim C6: for every generator with `MODEL ∈ {0, 1, 2}` and well-formed
inputs, a successfully constructed piecewise cost curve has at least 2
breakpoints with non-decreasing power values, and any length-validation
failure carries the name of the offending generator. -/
theorem buildCurve_invariants (g : GenRow) (segments : ℕ) (genco : String)
    (hM : g.MODEL = 0 ∨ g.MODEL = 1 ∨ g.MODEL = 2)
    (hwf : WellFormedGen g segments) :
    (∀ pts vals, buildCurve g segments genco = .ok (some (pts, vals)) →
        2 ≤ pts.length ∧ pts.Chain' (· ≤ ·)) ∧
    (∀ e, buildCurve g segments genco = .error e → e.isLengthViolation = true →
        e.genco? = some genco) := by
  obtain ⟨hp0, hpm, hseg, hchain⟩ := hwf
  constructor
  · intro pts vals h
    unfold buildCurve at h
    cases hraw : rawCurve g segments genco with
    | error e0 =>
      rw [hraw] at h
      simp [Except.bind] at h
    | ok o =>
      rw [hraw] at h
      simp only [Except.bind] at h
      cases o with
      | none => simp [validateCurve] at h
      | some pv =>
        obtain ⟨p, v⟩ := pv
        simp only [validateCurve] at h
        split_ifs at h with h1 h2
        cases h
        exact ⟨h1, rawCurve_points_chain' g segments genco _ _ hp0 hpm hchain hraw⟩
  · intro e h hlen
    unfold buildCurve at h
    cases hraw : rawCurve g segments genco with
    | error e0 =>
      rw [hraw] at h
      simp only [Except.bind] at h
      cases h
      exact rawCurve_error_genco g segments genco _ hraw hlen
    | ok o =>
      rw [hraw] at h
      simp only [Except.bind] at h
      cases o with
      | none => simp [validateCurve] at h
      | some pv =>
        obtain ⟨p, v⟩ := pv
        simp only [validateCurve] at h
        split_ifs at h with h1 h2 <;> cases h <;> rfl

/-- A concrete well-formed quadratic-cost generator row: `MODEL = 2`,
`NCOST = 3`, `PMIN = 1`, `PMAX = 3`, all cost coefficients `1`. -/
def sampleQuadGen : GenRow := ⟨2, 3, 1, 3, fun _ => 1, 0, 0⟩

/-- Witness for C6: the curve built for `sampleQuadGen` with the default 2
segments is `[1, 3]` with values `[3, 13]`, and it indeed has 2
non-decreasing breakpoints. -/
theorem buildCurve_invariants_witness :
    2 ≤ ([1, 3] : List ℚ).length ∧ ([1, 3] : List ℚ).Chain' (· ≤ ·) :=
  (buildCurve_invariants sampleQuadGen 2 "G1" (Or.inr (Or.inr rfl))
      (by norm_num [WellFormedGen, sampleQuadGen, List.range_succ])).1
    [1, 3] [3, 13]
    (by norm_num [buildCurve, rawCurve, linspace, validateCurve, Except.bind, sampleQuadGen,
      List.range_succ])

/-- Claim C7: for a polynomial-cost generator (`MODEL = 2`) with 2
coefficients, `build_model` produces exactly the two breakpoints `PMIN` and
`PMAX` (the latter perturbed upward by exactly one unit when
`PMIN = PMAX`), with the affine cost `COST_0 + COST_1 · p` evaluated at
each breakpoint. -/
theorem buildCurve_linear_model (g : GenRow) (segments : ℕ) (genco : String)
    (hM : g.MODEL = 2) (hN : g.NCOST = 2) :
    buildCurve g segments genco =
      .ok (some ([g.PMIN, g.PMAX + if g.PMIN = g.PMAX then 1 else 0],
                 [g.COST 0 + g.COST 1 * g.PMIN,
                  g.COST 0 + g.COST 1 * (g.PMAX + if g.PMIN = g.PMAX then 1 else 0)])) := by
  have hr : rawCurve g segments genco =
      .ok (some ([g.PMIN, g.PMAX + if g.PMIN = g.PMAX then 1 else 0],
                 [g.COST 0 + g.COST 1 * g.PMIN,
                  g.COST 0 + g.COST 1 * (g.PMAX + if g.PMIN = g.PMAX then 1 else 0)])) := by
    unfold rawCurve
    rw [hM, hN]
    simp only [if_true, linspace_two, List.map_cons, List.map_nil, if_pos rfl]
  unfold buildCurve
  rw [hr]
  simp [Except.bind, validateCurve]

/-- A concrete degenerate linear-cost generator row: `MODEL = 2`,
`NCOST = 2`, `PMIN = PMAX = 5`, `COST_0 = COST_1 = 1`. -/
def sampleLinearGen : GenRow := ⟨2, 2, 5, 5, fun _ => 1, 0, 0⟩

/-- Witness for C7: for `sampleLinearGen` (where `PMIN = PMAX = 5`) the
curve is `[5, 6]` — the upper breakpoint perturbed by one unit — with
affine costs `[6, 7]`. -/
theorem buildCurve_linear_model_witness :
    buildCurve sampleLinearGen 2 "G2" = .ok (some ([5, 6], [6, 7])) := by
  have h := buildCurve_linear_model sampleLinearGen 2 "G2" rfl rfl
  norm_num [sampleLinearGen] at h
  convert h using 4

/-- Claim C8: the market-type selector applies the flexible-ramp constraint
formulation for each of the three recognized market types (`day_ahead`,
`hourly_ahead`, `real_time` — all three invoke the same
`constraint_for_Flexible_Ramping`), and for any other `market_type` value
it fails with a NotImplemented error naming that value. -/
theorem marketTypeSelect_spec (mt : String) :
    (mt = "day_ahead" ∨ mt = "hourly_ahead" ∨ mt = "real_time" →
      marketTypeSelect mt = .ok [ConstraintCall.flexibleRamping]) ∧
    (mt ≠ "day_ahead" → mt ≠ "hourly_ahead" → mt ≠ "real_time" →
      marketTypeSelect mt = .error ("Unknown market type " ++ mt)) := by
  constructor
  · rintro (rfl | rfl | rfl) <;> rfl
  · intro h1 h2 h3
    unfold marketTypeSelect
    rw [if_neg h1, if_neg h2, if_neg h3]

/-- Witness for C8: the three recognized market types succeed, and the
unrecognized value `fifteen_minute` fails with an error naming it. -/
theorem marketTypeSelect_spec_witness :
    marketTypeSelect "day_ahead" = .ok [ConstraintCall.flexibleRamping] ∧
    marketTypeSelect "hourly_ahead" = .ok [ConstraintCall.flexibleRamping] ∧
    marketTypeSelect "real_time" = .ok [ConstraintCall.flexibleRamping] ∧
    marketTypeSelect "fifteen_minute" = .error ("Unknown market type " ++ "fifteen_minute") :=
  ⟨(marketTypeSelect_spec "day_ahead").1 (Or.inl rfl),
   (marketTypeSelect_spec "hourly_ahead").1 (Or.inr (Or.inl rfl)),
   (marketTypeSelect_spec "real_time").1 (Or.inr (Or.inr rfl)),
   (marketTypeSelect_spec "fifteen_minute").2 (by decide) (by decide) (by decide)⟩

/-- Claim C2: after the resolve phase of `PSSTModel.solve` — triggered by
its `resolve` argument or forced for the `'xpress'` backend, which cannot
report duals on integer programs — every commitment variable `UnitOn[g, t]`
is fixed and equal to its MIP-solved value, and the four
min-up/min-down-time constraint groups are deactivated in the model state
submitted to the continuous re-solve.  The hypothesis `hbin` states that
the first (MIP) solve reported a binary value for every commitment
variable. -/
theorem psstSolve_resolve_fixes_and_deactivates {G T : Type} (s : PSSTState G T)
    (solver : String) (resolve : Bool) (uc : G → T → Option ℚ)
    (htrig : resolve = true ∨ solver = "xpress")
    (hbin : ∀ g t, ∃ v, uc g t = some v ∧ (v = 0 ∨ v = 1)) :
    (∀ g t, ∃ v, uc g t = some v ∧
        ((psstSolve s solver resolve uc).1.model.unitOn g t).fixed = true ∧
        ((psstSolve s solver resolve uc).1.model.unitOn g t).value = v) ∧
    (psstSolve s solver resolve uc).1.model.enforceUpTimeConstraintsInitialActive = false ∧
    (psstSolve s solver resolve uc).1.model.enforceUpTimeConstraintsSubsequentActive = false ∧
    (psstSolve s solver resolve uc).1.model.enforceDownTimeConstraintsInitialActive = false ∧
    (psstSolve s solver resolve uc).1.model.enforceDownTimeConstraintsSubsequentActive
      = false := by
  have hr : (if solver = "xpress" then true else resolve) = true := by
    rcases htrig with rfl | rfl
    · split <;> rfl
    · simp
  have hmodel : (psstSolve s solver resolve uc).1.model = resolvePhase s.model uc := by
    have h0 : (psstSolve s solver resolve uc).1.model =
        if (if solver = "xpress" then true else resolve) then resolvePhase s.model uc
        else s.model := rfl
    rw [hr] at h0
    simpa using h0
  refine ⟨?_, ?_, ?_, ?_, ?_⟩
  · intro g t
    obtain ⟨v, hv, hbv⟩ := hbin g t
    refine ⟨v, hv, ?_, ?_⟩
    · rw [hmodel]
      unfold resolvePhase
      simp only [hv]
    · rw [hmodel]
      unfold resolvePhase
      simp only [hv]
      rcases hbv with rfl | rfl <;> norm_num [pyInt]
  · rw [hmodel]; rfl
  · rw [hmodel]; rfl
  · rw [hmodel]; rfl
  · rw [hmodel]; rfl

/-- A concrete model slice over a single generator and period, with the
commitment variable free and all four min-up/min-down groups active. -/
def sampleModel : UCModel Unit Unit where
  unitOn := fun _ _ => { fixed := false, value := 0 }
  enforceUpTimeConstraintsInitialActive := true
  enforceUpTimeConstraintsSubsequentActive := true
  enforceDownTimeConstraintsInitialActive := true
  enforceDownTimeConstraintsSubsequentActive := true

/-- The `PSSTModel` wrapping `sampleModel`, as `build_model` returns it. -/
def sampleState : PSSTState Unit Unit := ⟨sampleModel, false, none⟩

/-- A MIP solution reporting commitment value `1` for the only variable. -/
def sampleUC : Unit → Unit → Option ℚ := fun _ _ => some 1

/-- Witness for C2: solving `sampleState` with `resolve = True` under a
MIP solution that committed the unit fixes the variable at `1` and
deactivates all four constraint groups. -/
theorem psstSolve_resolve_fixes_and_deactivates_witness :
    (∀ g t : Unit, ∃ v, sampleUC g t = some v ∧
        ((psstSolve sampleState "glpk" true sampleUC).1.model.unitOn g t).fixed = true ∧
        ((psstSolve sampleState "glpk" true sampleUC).1.model.unitOn g t).value = v) ∧
    (psstSolve sampleState "glpk" true sampleUC).1.model.enforceUpTimeConstraintsInitialActive
      = false ∧
    (psstSolve sampleState "glpk" true sampleUC).1.model.enforceUpTimeConstraintsSubsequentActive
      = false ∧
    (psstSolve sampleState "glpk" true sampleUC).1.model.enforceDownTimeConstraintsInitialActive
      = false ∧
    (psstSolve sampleState "glpk" true sampleUC).1.model.enforceDownTimeConstraintsSubsequentActive
      = false :=
  psstSolve_resolve_fixes_and_deactivates sampleState "glpk" true sampleUC (Or.inl rfl)
    (fun _ _ => ⟨1, rfl, Or.inr rfl⟩)

/-- The config dict of claim C3: `{'resolve': True}`. -/
def resolveTrueConfig : List (String × ConfigVal) := [("resolve", ConfigVal.bool true)]

/-- Counterexample to claim C3 as stated: building with `resolve: True` in
the config (whose popped value is truthy, first conjunct) and then calling
`solve` without an explicit `resolve` argument (Python default `False`)
with the default `'glpk'` solver does **not** run the fix-and-resolve
phase (second conjunct): the popped config value reaches only
`constraint_up_down_time`, never `PSSTModel.solve`. -/
theorem config_resolve_not_forced_cex :
    (popConfigParams resolveTrueConfig).resolve.truthy = true ∧
    (psstSolve (buildOrchestration resolveTrueConfig sampleModel).1 "glpk" false
        sampleUC).2 = false :=
  ⟨rfl, rfl⟩

/-- Claim C3 amended: the `resolve` configuration option popped by
`build_model` is passed only to the up/down-time constraint construction;
the fix-and-resolve phase of a later `solve` call runs exactly when
`solve`'s own `resolve` argument is true or the solver is `'xpress'`,
independent of the config. -/
theorem resolve_phase_runs_iff_arg_or_xpress {G T : Type} (cfg : List (String × ConfigVal))
    (m : UCModel G T) (solver : String) (r : Bool) (uc : G → T → Option ℚ) :
    (psstSolve (buildOrchestration cfg m).1 solver r uc).2 =
      (if solver = "xpress" then true else r) ∧
    (buildOrchestration cfg m).2.1 = ((popConfigParams cfg).resolve).truthy :=
  ⟨rfl, rfl⟩

end Psst

